import Mathlib

/-!
Shallow embedding of the topology-mapping and state-synchronization engine of
src/grid2op/Backend/PandaPowerBackend.py.

The pandapower tables (bus, load, gen, line, trafo, shunt) are modelled as
lists of records; the power-flow solver itself is opaque and is modelled as a
function producing a result table (or a LoadflowNotConverged failure, the only
exception class the orchestrator catches).  NaN entries of the published float
vectors are modelled by Option (none = the NaN "unknown" sentinel); machine
floats are modelled by Rat, which keeps every definition executable.
Exceptions that carry across mutated state are modelled by
Except (String x Backend): an error holds the message and the state at raise
time, matching Python semantics where mutations before a raise persist.
-/

/-- One row of the pandapower bus table (columns used by the backend). -/
structure BusRow where
  vn_kv : Rat
  in_service : Bool
deriving DecidableEq, Inhabited

/-- One row of the pandapower load table (columns used by the backend). -/
structure LoadRow where
  bus : Int
  in_service : Bool
  p_mw : Rat
  q_mvar : Rat
deriving DecidableEq, Inhabited

/-- One row of the pandapower gen table (columns used by the backend). -/
structure GenRow where
  bus : Int
  in_service : Bool
  p_mw : Rat
  vm_pu : Rat
deriving DecidableEq, Inhabited

/-- One row of the pandapower line table (columns used by the backend). -/
structure LineRow where
  from_bus : Int
  to_bus : Int
  in_service : Bool
deriving DecidableEq, Inhabited

/-- One row of the pandapower trafo table (columns used by the backend). -/
structure TrafoRow where
  hv_bus : Int
  lv_bus : Int
  in_service : Bool
deriving DecidableEq, Inhabited

/-- One row of the pandapower shunt table (columns used by the backend). -/
structure ShuntRow where
  bus : Int
  in_service : Bool
  p_mw : Rat
  q_mvar : Rat
deriving DecidableEq, Inhabited

/-- Tag for the six per-kind bus mutators of the source's
dispatch list self._type_to_bus_set, in the source's index order
0 = load, 1 = gen, 2 = line origin, 3 = trafo hv, 4 = line extremity,
5 = trafo lv. -/
inductive BusSetKind where
  | load
  | gen
  | lor
  | trafo_hv
  | lex
  | trafo_lv
deriving DecidableEq, Inhabited

/-- The mutable state of a PandaPowerBackend instance: the pandapower grid
tables, the static index tables built by load_grid, and the published output
vectors.  Field names follow the source attributes; nb_bus_before_orig is the
source's name-mangled self.__nb_bus_before (bus-table length before the bus
duplication) while nb_bus_before is self._nb_bus_before (the warm-start
memory, None when cleared). -/
structure Backend where
  bus : List BusRow
  load : List LoadRow
  gen : List GenRow
  line : List LineRow
  trafo : List TrafoRow
  shunt : List ShuntRow
  ext_grid_bus : Int
  ext_grid_vm_pu : Rat
  nb_bus_before_orig : Nat
  init_bus_load : List Int
  init_bus_gen : List Int
  init_bus_lor : List Int
  init_bus_lex : List Int
  load_to_subid : List Int
  gen_to_subid : List Int
  line_or_to_subid : List Int
  line_ex_to_subid : List Int
  shunt_to_subid : List Int
  load_pos_topo_vect : List Nat
  gen_pos_topo_vect : List Nat
  line_or_pos_topo_vect : List Nat
  line_ex_pos_topo_vect : List Nat
  big_topo_to_backend : List (Nat × Nat × BusSetKind)
  dim_topo : Nat
  number_true_line : Nat
  iref_slack : Option Nat
  id_bus_added : Option Nat
  prod_pu_to_kv : List Rat
  load_pu_to_kv : List Rat
  lines_or_pu_to_kv : List Rat
  lines_ex_pu_to_kv : List Rat
  p_or : List (Option Rat)
  q_or : List (Option Rat)
  v_or : List (Option Rat)
  a_or : List (Option Rat)
  p_ex : List (Option Rat)
  q_ex : List (Option Rat)
  v_ex : List (Option Rat)
  a_ex : List (Option Rat)
  prod_p : List (Option Rat)
  prod_q : List (Option Rat)
  prod_v : List (Option Rat)
  load_p : List (Option Rat)
  load_q : List (Option Rat)
  load_v : List (Option Rat)
  line_status : List Bool
  topo_vect : List Int
  nb_bus_before : Option Nat
  pf_init : String
  comp_time : Rat
deriving DecidableEq, Inhabited

deriving instance DecidableEq for Except

/-- Replace the element at index i by f applied to it; out-of-range indices
leave the list unchanged (the model of a single pandas .iat assignment). -/
def listModify {α : Type} : List α → Nat → (α → α) → List α
  | [], _, _ => []
  | a :: l, 0, f => f a :: l
  | a :: l, n + 1, f => a :: listModify l n f

/-- Source get_nb_active_bus: np.sum of the bus table's in_service column. -/
def get_nb_active_bus (st : Backend) : Nat :=
  st.bus.countP (fun b => b.in_service)

/-- Source _pp_bus_from_grid2op_bus (lines 634-643): map a grid2op bus
selector and the element's load-time home bus row to a concrete pandapower
bus row; any selector outside -1, 1, 2 raises BackendError. -/
def pp_bus_from_grid2op_bus (st : Backend) (grid2op_bus : Int)
    (grid2op_bus_init : Int) : Except String Int :=
  if grid2op_bus = 1 then
    Except.ok grid2op_bus_init
  else if grid2op_bus = 2 then
    Except.ok (grid2op_bus_init + (st.nb_bus_before_orig : Int))
  else if grid2op_bus = -1 then
    Except.ok (-1)
  else
    Except.error "grid2op bus must be -1, 1 or 2"

/-- Source _apply_load_bus (lines 568-575): resolve the target bus first,
then set the load row's bus and in_service columns. -/
def apply_load_bus (st : Backend) (new_bus : Int) (id_el_backend : Nat)
    (id_topo : Nat) : Except (String × Backend) Backend :=
  match pp_bus_from_grid2op_bus st new_bus (st.init_bus_load.getD id_el_backend 0) with
  | Except.error m => Except.error (m, st)
  | Except.ok new_bus_backend =>
    if new_bus_backend ≥ 0 then
      Except.ok { st with load := (listModify st.load id_el_backend
        (fun r => { r with bus := new_bus_backend, in_service := true })) }
    else
      Except.ok { st with load := (listModify st.load id_el_backend
        (fun r => { r with in_service := false, bus := -1 })) }

/-- Source _apply_gen_bus (lines 577-588): like the load mutator, but a
reconnection of the last generator row additionally re-points the external
reference row's bus when a slack generator was synthesized at load time. -/
def apply_gen_bus (st : Backend) (new_bus : Int) (id_el_backend : Nat)
    (id_topo : Nat) : Except (String × Backend) Backend :=
  match pp_bus_from_grid2op_bus st new_bus (st.init_bus_gen.getD id_el_backend 0) with
  | Except.error m => Except.error (m, st)
  | Except.ok new_bus_backend =>
    if new_bus_backend ≥ 0 then
      let st1 := { st with gen := (listModify st.gen id_el_backend
        (fun r => { r with bus := new_bus_backend, in_service := true })) }
      if id_el_backend = st1.gen.length - 1 ∧ st1.iref_slack ≠ none then
        Except.ok { st1 with ext_grid_bus := new_bus_backend }
      else
        Except.ok st1
    else
      Except.ok { st with gen := (listModify st.gen id_el_backend
        (fun r => { r with in_service := false, bus := -1 })) }

/-- Source change_bus_powerline_or (lines 594-599). -/
def change_bus_powerline_or (st : Backend) (id_powerline_backend : Nat)
    (new_bus_backend : Int) : Backend :=
  if new_bus_backend ≥ 0 then
    { st with line := (listModify st.line id_powerline_backend
      (fun r => { r with in_service := true, from_bus := new_bus_backend })) }
  else
    { st with line := (listModify st.line id_powerline_backend
      (fun r => { r with in_service := false })) }

/-- Source change_bus_powerline_ex (lines 605-610). -/
def change_bus_powerline_ex (st : Backend) (id_powerline_backend : Nat)
    (new_bus_backend : Int) : Backend :=
  if new_bus_backend ≥ 0 then
    { st with line := (listModify st.line id_powerline_backend
      (fun r => { r with in_service := true, to_bus := new_bus_backend })) }
  else
    { st with line := (listModify st.line id_powerline_backend
      (fun r => { r with in_service := false })) }

/-- Source change_bus_trafo_hv (lines 616-621). -/
def change_bus_trafo_hv (st : Backend) (id_powerline_backend : Nat)
    (new_bus_backend : Int) : Backend :=
  if new_bus_backend ≥ 0 then
    { st with trafo := (listModify st.trafo id_powerline_backend
      (fun r => { r with in_service := true, hv_bus := new_bus_backend })) }
  else
    { st with trafo := (listModify st.trafo id_powerline_backend
      (fun r => { r with in_service := false })) }

/-- Source change_bus_trafo_lv (lines 627-632). -/
def change_bus_trafo_lv (st : Backend) (id_powerline_backend : Nat)
    (new_bus_backend : Int) : Backend :=
  if new_bus_backend ≥ 0 then
    { st with trafo := (listModify st.trafo id_powerline_backend
      (fun r => { r with in_service := true, lv_bus := new_bus_backend })) }
  else
    { st with trafo := (listModify st.trafo id_powerline_backend
      (fun r => { r with in_service := false })) }

/-- Source _apply_lor_bus (lines 590-592). -/
def apply_lor_bus (st : Backend) (new_bus : Int) (id_el_backend : Nat)
    (id_topo : Nat) : Except (String × Backend) Backend :=
  match pp_bus_from_grid2op_bus st new_bus (st.init_bus_lor.getD id_el_backend 0) with
  | Except.error m => Except.error (m, st)
  | Except.ok new_bus_backend =>
    Except.ok (change_bus_powerline_or st id_el_backend new_bus_backend)

/-- Source _apply_lex_bus (lines 601-603). -/
def apply_lex_bus (st : Backend) (new_bus : Int) (id_el_backend : Nat)
    (id_topo : Nat) : Except (String × Backend) Backend :=
  match pp_bus_from_grid2op_bus st new_bus (st.init_bus_lex.getD id_el_backend 0) with
  | Except.error m => Except.error (m, st)
  | Except.ok new_bus_backend =>
    Except.ok (change_bus_powerline_ex st id_el_backend new_bus_backend)

/-- Source _apply_trafo_hv (lines 612-614): reads the concatenated
init_bus_lor table at the global branch index, mutates the trafo-local row. -/
def apply_trafo_hv (st : Backend) (new_bus : Int) (id_el_backend : Nat)
    (id_topo : Nat) : Except (String × Backend) Backend :=
  match pp_bus_from_grid2op_bus st new_bus (st.init_bus_lor.getD id_el_backend 0) with
  | Except.error m => Except.error (m, st)
  | Except.ok new_bus_backend =>
    Except.ok (change_bus_trafo_hv st id_topo new_bus_backend)

/-- Source _apply_trafo_lv (lines 623-625). -/
def apply_trafo_lv (st : Backend) (new_bus : Int) (id_el_backend : Nat)
    (id_topo : Nat) : Except (String × Backend) Backend :=
  match pp_bus_from_grid2op_bus st new_bus (st.init_bus_lex.getD id_el_backend 0) with
  | Except.error m => Except.error (m, st)
  | Except.ok new_bus_backend =>
    Except.ok (change_bus_trafo_lv st id_topo new_bus_backend)

/-- Dispatch on the element kind, the source's self._type_to_bus_set list. -/
def type_to_bus_set (st : Backend) (k : BusSetKind) (new_bus : Int)
    (id_el_backend : Nat) (id_topo : Nat) : Except (String × Backend) Backend :=
  match k with
  | BusSetKind.load => apply_load_bus st new_bus id_el_backend id_topo
  | BusSetKind.gen => apply_gen_bus st new_bus id_el_backend id_topo
  | BusSetKind.lor => apply_lor_bus st new_bus id_el_backend id_topo
  | BusSetKind.trafo_hv => apply_trafo_hv st new_bus id_el_backend id_topo
  | BusSetKind.lex => apply_lex_bus st new_bus id_el_backend id_topo
  | BusSetKind.trafo_lv => apply_trafo_lv st new_bus id_el_backend id_topo

/-- Source apply_action's topology loop (lines 559-561): look up the backend
descriptor of each acted slot and dispatch to the per-kind mutator; an
invalid selector raised by any mutator propagates. -/
def apply_topo_changes (st : Backend) : List (Nat × Int) → Except (String × Backend) Backend
  | [] => Except.ok st
  | (id_el, new_bus) :: rest =>
    let desc := st.big_topo_to_backend.getD id_el (0, 0, BusSetKind.load)
    match type_to_bus_set st desc.2.2 new_bus desc.1 desc.2.1 with
    | Except.error e => Except.error e
    | Except.ok st1 => apply_topo_changes st1 rest

/-- An injection vector of a backend action: per-row values plus the
boolean changed mask. -/
structure ValueStore where
  values : List Rat
  changed : List Bool
deriving DecidableEq, Inhabited

/-- The shunt bus-selector vector of a backend action (integer selectors). -/
structure ShuntStore where
  values : List Int
  changed : List Bool
deriving DecidableEq, Inhabited

/-- The tuple yielded by calling the backend action object (source line 519):
per-substation two-column bus in-service matrix, the four injection vectors,
the (slot, selector) list and the three shunt vectors. -/
structure BackendAction where
  active_bus : List (Bool × Bool)
  prod_p : ValueStore
  prod_v : ValueStore
  load_p : ValueStore
  load_q : ValueStore
  topo : List (Nat × Int)
  shunt_p : ValueStore
  shunt_q : ValueStore
  shunt_bus : ShuntStore
deriving DecidableEq, Inhabited

/-- Source apply_action lines 521-523: overwrite the flagged-changed rows of
the gen table's p_mw column. -/
def apply_inj_prod_p (st : Backend) (a : ValueStore) : Backend :=
  { st with gen := ((List.range st.gen.length).map (fun i =>
      let r := st.gen.getD i default
      if a.changed.getD i false then { r with p_mw := a.values.getD i 0 } else r)) }

/-- Source apply_action lines 525-527: overwrite the flagged-changed rows of
the gen table's vm_pu column, dividing by the per-unit conversion factor. -/
def apply_inj_prod_v (st : Backend) (a : ValueStore) : Backend :=
  { st with gen := ((List.range st.gen.length).map (fun i =>
      let r := st.gen.getD i default
      if a.changed.getD i false then
        { r with vm_pu := a.values.getD i 0 / st.prod_pu_to_kv.getD i 1 }
      else r)) }

/-- Source apply_action lines 529-531: if the synthesized slack generator's
voltage changed, propagate the (already converted) setpoint to the external
reference row's vm_pu field. -/
def apply_slack_v (st : Backend) (a : ValueStore) : Backend :=
  match st.id_bus_added with
  | none => st
  | some idb =>
    if a.changed.getD idb false then
      { st with ext_grid_vm_pu := (st.gen.getD idb default).vm_pu }
    else st

/-- Source apply_action lines 533-535. -/
def apply_inj_load_p (st : Backend) (a : ValueStore) : Backend :=
  { st with load := ((List.range st.load.length).map (fun i =>
      let r := st.load.getD i default
      if a.changed.getD i false then { r with p_mw := a.values.getD i 0 } else r)) }

/-- Source apply_action lines 537-539. -/
def apply_inj_load_q (st : Backend) (a : ValueStore) : Backend :=
  { st with load := ((List.range st.load.length).map (fun i =>
      let r := st.load.getD i default
      if a.changed.getD i false then { r with q_mvar := a.values.getD i 0 } else r)) }

/-- Source apply_action lines 541-556, the shunt block.  The bus-assignment
masks embed the source expressions shunt_bus.changed & shunt_bus.values == 1
and ... == 2 with numpy semantics: the bitwise AND binds tighter than the
comparison, and for a changed row (changed cast to 1) the AND keeps only the
value's lowest two's-complement bit, which the Int.emod by 2 computes; the
second mask compares that bit with 2 and thus never fires. -/
def apply_shunt_updates (st : Backend) (sp : ValueStore) (sq : ValueStore)
    (sb : ShuntStore) : Backend :=
  { st with shunt := ((List.range st.shunt.length).map (fun i =>
      let r := st.shunt.getD i default
      let r := if sp.changed.getD i false then { r with p_mw := sp.values.getD i 0 } else r
      let r := if sq.changed.getD i false then { r with q_mvar := sq.values.getD i 0 } else r
      let r := if sb.changed.getD i false then
          { r with in_service := decide (sb.values.getD i 0 ≠ -1) } else r
      let r := if sb.changed.getD i false ∧ (sb.values.getD i 0) % 2 = 1 then
          { r with bus := st.shunt_to_subid.getD i 0 } else r
      let r := if sb.changed.getD i false ∧ (sb.values.getD i 0) % 2 = 2 then
          { r with bus := st.shunt_to_subid.getD i 0 + (st.nb_bus_before_orig : Int) } else r
      r)) }

/-- Source apply_action lines 563-566: write the per-substation two-column
in-service matrix into the doubled bus table (row i and row
i + original-bus-count). -/
def apply_active_bus_rows (nb : Nat) : List BusRow → Nat → List (Bool × Bool) → List BusRow
  | busl, _, [] => busl
  | busl, i, (b1, b2) :: rest =>
    let busl := listModify busl i (fun r => { r with in_service := b1 })
    let busl := listModify busl (i + nb) (fun r => { r with in_service := b2 })
    apply_active_bus_rows nb busl (i + 1) rest

/-- Source apply_action lines 563-566, lifted to the backend state. -/
def apply_active_bus (st : Backend) (active_bus : List (Bool × Bool)) : Backend :=
  { st with bus := apply_active_bus_rows st.nb_bus_before_orig st.bus 0 active_bus }

/-- The injection and shunt prefix of apply_action (lines 521-556), executed
before the topology loop. -/
def apply_injections_shunts (st : Backend) (a : BackendAction) : Backend :=
  let st := apply_inj_prod_p st a.prod_p
  let st := apply_inj_prod_v st a.prod_v
  let st := apply_slack_v st a.prod_v
  let st := apply_inj_load_p st a.load_p
  let st := apply_inj_load_q st a.load_q
  apply_shunt_updates st a.shunt_p a.shunt_q a.shunt_bus

/-- Source apply_action (lines 510-566): no-op on an absent action, else
injections, shunts, the topology loop (which may raise on an invalid
selector) and finally the bus in-service matrix. -/
def apply_action (st : Backend) (act : Option BackendAction) :
    Except (String × Backend) Backend :=
  match act with
  | none => Except.ok st
  | some a =>
    let st := apply_injections_shunts st a
    match apply_topo_changes st a.topo with
    | Except.error e => Except.error e
    | Except.ok st1 => Except.ok (apply_active_bus st1 a.active_bus)

/-- Sequence of assignments res[p] = v performed by _get_topo_vect, applied
left to right (out-of-range positions are dropped, as List.set does). -/
def write_slots (pairs : List (Nat × Int)) (res : List Int) : List Int :=
  pairs.foldl (fun r q => r.set q.1 q.2) res

/-- Source _get_topo_vect lines 837-846, the powerline loop: for line i the
origin and extremity slots receive -1 when the recorded line status is false,
else 1 when the end's current bus equals the substation (original bus) and 2
otherwise.  Note the loop reads the published line_status vector
(self.get_line_status()), not the grid column. -/
def line_pairs (st : Backend) : List (Nat × Int) :=
  (List.range st.line.length).bind (fun i =>
    let row := st.line.getD i default
    if st.line_status.getD i false then
      [(st.line_or_pos_topo_vect.getD i 0,
        if row.from_bus = st.line_or_to_subid.getD i 0 then 1 else 2),
       (st.line_ex_pos_topo_vect.getD i 0,
        if row.to_bus = st.line_ex_to_subid.getD i 0 then 1 else 2)]
    else
      [(st.line_or_pos_topo_vect.getD i 0, -1),
       (st.line_ex_pos_topo_vect.getD i 0, -1)])

/-- Source _get_topo_vect lines 848-861, the trafo loop, with the global
branch index j = i + number_true_line. -/
def trafo_pairs (st : Backend) : List (Nat × Int) :=
  (List.range st.trafo.length).bind (fun i =>
    let row := st.trafo.getD i default
    let j := i + st.number_true_line
    if st.line_status.getD j false then
      [(st.line_or_pos_topo_vect.getD j 0,
        if row.hv_bus = st.line_or_to_subid.getD j 0 then 1 else 2),
       (st.line_ex_pos_topo_vect.getD j 0,
        if row.lv_bus = st.line_ex_to_subid.getD j 0 then 1 else 2)]
    else
      [(st.line_or_pos_topo_vect.getD j 0, -1),
       (st.line_ex_pos_topo_vect.getD j 0, -1)])

/-- Source _get_topo_vect lines 863-866, the generator loop: no in-service
inspection, 1 when the current bus equals the substation and 2 otherwise. -/
def gen_pairs (st : Backend) : List (Nat × Int) :=
  (List.range st.gen.length).map (fun i =>
    (st.gen_pos_topo_vect.getD i 0,
     if (st.gen.getD i default).bus = st.gen_to_subid.getD i 0 then 1 else 2))

/-- Source _get_topo_vect lines 868-871, the load loop (same shape as the
generator loop, again without any in-service inspection). -/
def load_pairs (st : Backend) : List (Nat × Int) :=
  (List.range st.load.length).map (fun i =>
    (st.load_pos_topo_vect.getD i 0,
     if (st.load.getD i default).bus = st.load_to_subid.getD i 0 then 1 else 2))

/-- All slot writes of _get_topo_vect in source order. -/
def topo_pairs (st : Backend) : List (Nat × Int) :=
  line_pairs st ++ trafo_pairs st ++ gen_pairs st ++ load_pairs st

/-- Source _get_topo_vect (lines 831-873): initialize a dim_topo vector and
perform the four write loops. -/
def get_topo_vect (st : Backend) : List Int :=
  write_slots (topo_pairs st) (List.replicate st.dim_topo 0)

/-- One branch row of the solver result tables res_line / res_trafo; for a
trafo row the hv columns map to the from fields and the lv columns to the to
fields, matching _aux_get_line_info's column pairing. -/
structure BranchRes where
  p_from : Option Rat
  q_from : Option Rat
  vm_from : Option Rat
  i_from : Option Rat
  p_to : Option Rat
  q_to : Option Rat
  vm_to : Option Rat
  i_to : Option Rat
deriving DecidableEq, Inhabited

/-- The solver-produced result tables read by the success path of runpf and
by the result extractors (res_gen, res_load, res_bus, res_line, res_trafo,
the internal ppc generator table, the elapsed-time entry and the converged
flag).  A none entry models a NaN / non-finite solver value. -/
structure SolverOutput where
  res_gen_p : List (Option Rat)
  res_gen_q : List (Option Rat)
  res_gen_v : List (Option Rat)
  res_load_p : List (Option Rat)
  res_load_q : List (Option Rat)
  res_bus_vm : List (Option Rat)
  res_line : List BranchRes
  res_trafo : List BranchRes
  res_shunt_p : List (Option Rat)
  res_shunt_q : List (Option Rat)
  internal_gen : Option (List (Rat × Rat))
  et : Rat
  converged : Bool
deriving DecidableEq, Inhabited

/-- The opaque power-flow engine: given the grid state, the dc flag and the
initialization mode, either produce result tables or raise
LoadflowNotConverged (the only failure class modelled, and the only one the
orchestrator catches). -/
def SolverCall : Type := Backend → Bool → String → Except String SolverOutput

/-- Source res_bus lookup self._grid.res_bus["vm_pu"].loc[b]: a negative
(disconnected) bus label has no row, modelled as none. -/
def res_bus_vm_at (out : SolverOutput) (b : Int) : Option Rat :=
  if b < 0 then none else out.res_bus_vm.getD b.toNat none

/-- Source _gens_info (lines 875-886): read res_gen, convert vm_pu to kV,
and, whenever a slack generator was synthesized at load time and the solver
exposes its internal ppc generator table, add the internal reference row's p
and q onto the synthesized generator's row.  The bus-sharing guard visible in
the source is commented out (line 882). -/
def gens_info (st : Backend) (out : SolverOutput) :
    List (Option Rat) × List (Option Rat) × List (Option Rat) :=
  let prod_p := out.res_gen_p
  let prod_q := out.res_gen_q
  let prod_v := (out.res_gen_v.zip st.prod_pu_to_kv).map (fun p => p.1.map (· * p.2))
  match st.iref_slack with
  | none => (prod_p, prod_q, prod_v)
  | some iref =>
    match out.internal_gen with
    | none => (prod_p, prod_q, prod_v)
    | some igen =>
      let idb := st.id_bus_added.getD 0
      (listModify prod_p idb (fun o => o.map (· + (igen.getD iref (0, 0)).1)),
       listModify prod_q idb (fun o => o.map (· + (igen.getD iref (0, 0)).2)),
       prod_v)

/-- Source _loads_info (lines 888-892): res_load p and q, and the bus
voltage magnitude at each load's current bus scaled to kV. -/
def loads_info (st : Backend) (out : SolverOutput) :
    List (Option Rat) × List (Option Rat) × List (Option Rat) :=
  let load_v := ((st.load.map (fun r => res_bus_vm_at out r.bus)).zip
    st.load_pu_to_kv).map (fun p => p.1.map (· * p.2))
  (out.res_load_p, out.res_load_q, load_v)

/-- Source _get_line_status (lines 806-807): concatenated in_service columns
of the line and trafo tables. -/
def get_line_status_grid (st : Backend) : List Bool :=
  st.line.map (fun r => r.in_service) ++ st.trafo.map (fun r => r.in_service)

/-- Source runpf lines 704-713, the dc-only load voltage fix: base value is
the conversion factor itself; when a generator sits at the load's substation
and the two topology-vector entries compared by the source match, the
generator's published voltage is used instead.  The source compares
topo_vect at load_pos_topo_vect for both indices (line 711). -/
def dc_loadv_fix (st : Backend) : List (Option Rat) :=
  (List.range st.load.length).map (fun l =>
    let sub := st.load_to_subid.getD l 0
    let cands := (List.range st.gen_to_subid.length).filter
      (fun g => st.gen_to_subid.getD g 0 = sub)
    match cands.find? (fun g =>
        st.topo_vect.getD (st.load_pos_topo_vect.getD l 0) 0 =
        st.topo_vect.getD (st.load_pos_topo_vect.getD g 0) 0) with
    | some g => st.prod_v.getD g none
    | none => st.load_v.getD l none)

/-- Source runpf lines 715-736, the branch result block: refresh line_status
from the grid, read the concatenated line/trafo results, scale currents by
1000, floor non-finite currents and voltages to zero, zero the voltage of
de-energized ends, and scale voltages to kV. -/
def extract_branch_results (st : Backend) (out : SolverOutput) : Backend :=
  let line_status := get_line_status_grid st
  let branch := out.res_line ++ out.res_trafo
  let p_or := branch.map (fun b => b.p_from)
  let q_or := branch.map (fun b => b.q_from)
  let v_or0 := (branch.map (fun b => b.vm_from)).map (fun o => some (o.getD 0))
  let a_or := (branch.map (fun b => b.i_from.map (· * 1000))).map (fun o => some (o.getD 0))
  let p_ex := branch.map (fun b => b.p_to)
  let q_ex := branch.map (fun b => b.q_to)
  let v_ex0 := (branch.map (fun b => b.vm_to)).map (fun o => some (o.getD 0))
  let a_ex := (branch.map (fun b => b.i_to.map (· * 1000))).map (fun o => some (o.getD 0))
  let v_or1 := (v_or0.zip line_status).map (fun p => if p.2 then p.1 else some 0)
  let v_ex1 := (v_ex0.zip line_status).map (fun p => if p.2 then p.1 else some 0)
  let v_or2 := (v_or1.zip st.lines_or_pu_to_kv).map (fun p => p.1.map (· * p.2))
  let v_ex2 := (v_ex1.zip st.lines_ex_pu_to_kv).map (fun p => p.1.map (· * p.2))
  { st with
    line_status := line_status
    p_or := p_or
    q_or := q_or
    v_or := v_or2
    a_or := a_or
    p_ex := p_ex
    q_ex := q_ex
    v_ex := v_ex2
    a_ex := a_ex }

/-- Source runpf lines 665-670, the warm-start initialization choice. -/
def pf_init_choice (nb_bus_before : Option Nat) (nb_bus : Nat) : String :=
  if nb_bus_before = none then "dc"
  else if some nb_bus = nb_bus_before then "results"
  else "auto"

/-- Source _reset_all_nan (lines 748-763): every published electrical output
vector becomes all-NaN and the warm-start memory is cleared. -/
def reset_all_nan (st : Backend) : Backend :=
  { st with
    p_or := List.replicate st.p_or.length none,
    q_or := List.replicate st.q_or.length none,
    v_or := List.replicate st.v_or.length none,
    a_or := List.replicate st.a_or.length none,
    p_ex := List.replicate st.p_ex.length none,
    q_ex := List.replicate st.q_ex.length none,
    v_ex := List.replicate st.v_ex.length none,
    a_ex := List.replicate st.a_ex.length none,
    prod_p := List.replicate st.prod_p.length none,
    prod_q := List.replicate st.prod_q.length none,
    prod_v := List.replicate st.prod_v.length none,
    load_p := List.replicate st.load_p.length none,
    load_q := List.replicate st.load_q.length none,
    load_v := List.replicate st.load_v.length none,
    nb_bus_before := none }

/-- The try block of source runpf (lines 658-741).  An error value is the
LoadflowNotConverged message together with the state as mutated up to the
raise point.  The write of the internal ppc slack row (source line 739)
mutates solver-internal memory only and is outside the modelled state. -/
def runpf_try (solver : SolverCall) (st0 : Backend) (is_dc : Bool) :
    Except (String × Backend) (Backend × Bool) :=
  let nb_bus := get_nb_active_bus st0
  let st := { st0 with pf_init := pf_init_choice st0.nb_bus_before nb_bus }
  if st.load.any (fun r => !r.in_service) then Except.error ("Isolated load", st)
  else if st.gen.any (fun r => !r.in_service) then Except.error ("Isolated gen", st)
  else
    match solver st is_dc st.pf_init with
    | Except.error m => Except.error (m, st)
    | Except.ok out =>
      let st := if is_dc then { st with nb_bus_before := none } else st
      let st := { st with comp_time := st.comp_time + out.et }
      if (out.res_gen_p ++ out.res_gen_q ++ out.res_gen_v).any (fun o => o.isNone) then
        Except.error ("Isolated gen", st)
      else
        let gi := gens_info st out
        let st := { st with prod_p := gi.1, prod_q := gi.2.1, prod_v := gi.2.2 }
        let li := loads_info st out
        let st := { st with load_p := li.1, load_q := li.2.1, load_v := li.2.2 }
        let stage :=
          if is_dc then
            let st1 := { st with load_v := st.load_pu_to_kv.map some }
            Except.ok { st1 with load_v := dc_loadv_fix st1 }
          else if st.load_v.any (fun o => o.isNone) then
            Except.error ("Isolated load", st)
          else
            Except.ok st
        match stage with
        | Except.error e => Except.error e
        | Except.ok st =>
          let st := extract_branch_results st out
          let st := { st with nb_bus_before := none }
          let st := { st with topo_vect := get_topo_vect st }
          Except.ok (st, out.converged)

/-- Source runpf (lines 649-746): run the try block; a LoadflowNotConverged
failure is absorbed, the outputs are reset to the unknown sentinel on the
state as mutated so far, and False is returned.  The function is total: this
failure class never escapes to the caller. -/
def runpf (solver : SolverCall) (st : Backend) (is_dc : Bool) : Backend × Bool :=
  match runpf_try solver st is_dc with
  | Except.ok r => r
  | Except.error e => (reset_all_nan e.2, false)

/-- Source shunt_info (lines 906-914): p and q from res_shunt, v as the bus
voltage magnitude times the bus nominal voltage, and the published
bus indicator computed as 1 * (bus < original-bus-count) cast to int,
which yields 1 for a bus in the original block and 0 otherwise. -/
def shunt_info (st : Backend) (out : SolverOutput) :
    List (Option Rat) × List (Option Rat) × List (Option Rat) × List Int :=
  let shunt_p := out.res_shunt_p
  let shunt_q := out.res_shunt_q
  let shunt_v := st.shunt.map (fun r =>
    (res_bus_vm_at out r.bus).map (fun v =>
      v * (if r.bus < 0 then 0 else (st.bus.getD r.bus.toNat default).vn_kv)))
  let shunt_bus := st.shunt.map (fun r =>
    if r.bus < (st.nb_bus_before_orig : Int) then (1 : Int) else 0)
  (shunt_p, shunt_q, shunt_v, shunt_bus)

/-- Source load_grid lines 417-419: the appended block is a copy of the bus
table with every row forced out of service. -/
def add_topo_rows (bus : List BusRow) : List BusRow :=
  bus.map (fun b => { b with in_service := false })

/-- Source load_grid lines 416-420: the bus table after duplication, the
out-of-service copy appended after all original buses (the pandas index
shift add_topo.index += add_topo.shape[0] becomes the list position
i + original length). -/
def load_grid_double_bus (bus : List BusRow) : List BusRow :=
  bus ++ add_topo_rows bus

/-- True when every entry of every published electrical output vector is the
unknown (NaN) sentinel. -/
def outputs_all_unknown (st : Backend) : Bool :=
  (st.p_or ++ st.q_or ++ st.v_or ++ st.a_or ++ st.p_ex ++ st.q_ex ++ st.v_ex ++
   st.a_ex ++ st.prod_p ++ st.prod_q ++ st.prod_v ++ st.load_p ++ st.load_q ++
   st.load_v).all (fun o => o.isNone)

/-- A backend state with every table empty, used as the base of the concrete
evaluation states below. -/
def B0 : Backend where
  bus := []
  load := []
  gen := []
  line := []
  trafo := []
  shunt := []
  ext_grid_bus := 0
  ext_grid_vm_pu := 1
  nb_bus_before_orig := 0
  init_bus_load := []
  init_bus_gen := []
  init_bus_lor := []
  init_bus_lex := []
  load_to_subid := []
  gen_to_subid := []
  line_or_to_subid := []
  line_ex_to_subid := []
  shunt_to_subid := []
  load_pos_topo_vect := []
  gen_pos_topo_vect := []
  line_or_pos_topo_vect := []
  line_ex_pos_topo_vect := []
  big_topo_to_backend := []
  dim_topo := 0
  number_true_line := 0
  iref_slack := none
  id_bus_added := none
  prod_pu_to_kv := []
  load_pu_to_kv := []
  lines_or_pu_to_kv := []
  lines_ex_pu_to_kv := []
  p_or := []
  q_or := []
  v_or := []
  a_or := []
  p_ex := []
  q_ex := []
  v_ex := []
  a_ex := []
  prod_p := []
  prod_q := []
  prod_v := []
  load_p := []
  load_q := []
  load_v := []
  line_status := []
  topo_vect := []
  nb_bus_before := none
  pf_init := "flat"
  comp_time := 0

/-- A solver that always reports LoadflowNotConverged; used where a concrete
member of SolverCall is needed. -/
def solver0 : SolverCall := fun _ _ _ => Except.error "LoadflowNotConverged"

/-- Concrete state with a single out-of-service load whose bus column holds
the disconnect value -1 (the state _apply_load_bus leaves after a
disconnection). -/
def stC2 : Backend :=
  { B0 with
    load := [⟨-1, false, 0, 0⟩]
    load_to_subid := [0]
    load_pos_topo_vect := [0]
    dim_topo := 1 }

/-- Concrete well-formed state exercising all four element families of
_get_topo_vect: one in-service line, one out-of-service trafo, one generator
moved to its split bus, one load on its original bus. -/
def stW2 : Backend :=
  { B0 with
    line := [⟨0, 1, true⟩]
    trafo := [⟨1, 2, false⟩]
    gen := [⟨5, true, 0, 0⟩]
    load := [⟨0, true, 0, 0⟩]
    nb_bus_before_orig := 3
    line_or_to_subid := [0, 1]
    line_ex_to_subid := [1, 2]
    gen_to_subid := [2]
    load_to_subid := [0]
    line_or_pos_topo_vect := [0, 2]
    line_ex_pos_topo_vect := [1, 3]
    gen_pos_topo_vect := [4]
    load_pos_topo_vect := [5]
    number_true_line := 1
    dim_topo := 6
    line_status := [true, false] }

/-- Concrete state with one out-of-service load, making the isolated-element
precheck of runpf fire. -/
def stW3 : Backend :=
  { B0 with load := [⟨0, false, 0, 0⟩], load_to_subid := [0] }

/-- The state stW3 carries at the isolated-load raise point of runpf_try. -/
def stW3e : Backend := { stW3 with pf_init := "dc" }

/-- Concrete state whose recorded warm-start bus count matches the current
active bus count. -/
def stW4 : Backend :=
  { B0 with bus := [⟨1, true⟩], nb_bus_before := some 1 }

/-- Concrete state with one out-of-service generator. -/
def stW5 : Backend :=
  { B0 with gen := [⟨0, false, 0, 0⟩], gen_to_subid := [0] }

/-- Concrete state with one in-service shunt sitting on its split bus
(row 2 = substation 0 + original-bus-count 2). -/
def stC6 : Backend :=
  { B0 with
    bus := [⟨10, true⟩, ⟨20, true⟩, ⟨10, false⟩, ⟨20, false⟩]
    nb_bus_before_orig := 2
    shunt := [⟨2, true, 0, 0⟩]
    shunt_to_subid := [0] }

/-- Solver output for the stC6 scenario. -/
def outC6 : SolverOutput where
  res_gen_p := []
  res_gen_q := []
  res_gen_v := []
  res_load_p := []
  res_load_q := []
  res_bus_vm := [some 1, some 1, some 1, some 1]
  res_line := []
  res_trafo := []
  res_shunt_p := [some 0]
  res_shunt_q := [some 0]
  internal_gen := none
  et := 0
  converged := true

/-- Concrete state where a slack generator was synthesized (row 1) and sits
alone on bus 3 while the only other generator sits on bus 0. -/
def stC7 : Backend :=
  { B0 with
    gen := [⟨0, true, 0, 0⟩, ⟨3, true, 0, 0⟩]
    gen_to_subid := [0, 3]
    prod_pu_to_kv := [1, 1]
    iref_slack := some 0
    id_bus_added := some 1 }

/-- Solver output for the stC7 scenario: the internal reference row carries
5 MW and 4 MVAr. -/
def outC7 : SolverOutput where
  res_gen_p := [some 1, some 2]
  res_gen_q := [some 0, some 0]
  res_gen_v := [some 1, some 1]
  res_load_p := []
  res_load_q := []
  res_bus_vm := []
  res_line := []
  res_trafo := []
  res_shunt_p := []
  res_shunt_q := []
  internal_gen := some [(5, 4)]
  et := 0
  converged := true

/-- Concrete two-row bus table for the duplication witness. -/
def busW8 : List BusRow := [⟨7, true⟩, ⟨8, false⟩]

/-- Concrete state with one load on home bus 2, for the action theorems. -/
def stW10 : Backend :=
  { B0 with
    load := [⟨2, true, 0, 0⟩]
    init_bus_load := [2]
    load_to_subid := [2]
    gen := [⟨3, true, 0, 0⟩]
    init_bus_gen := [3]
    gen_to_subid := [3]
    big_topo_to_backend := [(0, 0, BusSetKind.load)] }

/-- The state after disconnecting load 0 of stW10. -/
def stW10a : Backend := { stW10 with load := [⟨-1, false, 0, 0⟩] }

/-- The state after reconnecting load 0 of stW10a to its original bus. -/
def stW10b : Backend := { stW10a with load := [⟨2, true, 0, 0⟩] }

/-- The state after disconnecting generator 0 of stW10. -/
def stW10c : Backend := { stW10 with gen := [⟨-1, false, 0, 0⟩] }

/-- The state after reconnecting generator 0 of stW10c to its original bus.
The reconnect also re-points the external reference row only when a slack
generator was synthesized, which is not the case here. -/
def stW10d : Backend := { stW10c with gen := [⟨3, true, 0, 0⟩] }

/-- An action whose topology list first disconnects load 0 (a valid pair)
and then carries the invalid selector 5. -/
def aW9 : BackendAction where
  active_bus := []
  prod_p := ⟨[], []⟩
  prod_v := ⟨[], []⟩
  load_p := ⟨[], []⟩
  load_q := ⟨[], []⟩
  topo := [(0, -1), (0, 5)]
  shunt_p := ⟨[], []⟩
  shunt_q := ⟨[], []⟩
  shunt_bus := ⟨[], []⟩

/-- The state reached from stW10 after the injection/shunt prefix of aW9 and
its first (valid) topology pair: load 0 disconnected, nothing else changed.
This is the state the invalid second pair's error must carry. -/
def stW9e : Backend := { stW10 with load := [⟨-1, false, 0, 0⟩] }

theorem listModify_length {α : Type} (l : List α) (i : Nat) (f : α → α) :
    (listModify l i f).length = l.length := by
  induction l generalizing i with
  | nil => rfl
  | cons a t ih =>
    cases i with
    | zero => rfl
    | succ n => simp [listModify, ih]

theorem listModify_getD {α : Type} (l : List α) (i : Nat) (f : α → α) (d : α)
    (h : i < l.length) : (listModify l i f).getD i d = f (l.getD i d) := by
  induction l generalizing i with
  | nil => simp at h
  | cons a t ih =>
    cases i with
    | zero => rfl
    | succ n =>
      have hn : n < t.length := by simpa using h
      simpa [listModify] using ih n hn

theorem listModify_getD_ne {α : Type} (l : List α) (i j : Nat) (f : α → α) (d : α)
    (h : j ≠ i) : (listModify l i f).getD j d = l.getD j d := by
  induction l generalizing i j with
  | nil => rfl
  | cons a t ih =>
    cases i with
    | zero =>
      cases j with
      | zero => exact absurd rfl h
      | succ m => rfl
    | succ n =>
      cases j with
      | zero => rfl
      | succ m =>
        have hm : m ≠ n := fun hc => h (by simp [hc])
        simpa [listModify] using ih n m hm

theorem getD_range_map {α : Type} [Inhabited α] (n : Nat) (f : Nat → α) (i : Nat) :
    ((List.range n).map f).getD i default = if i < n then f i else default := by
  split
  · next h =>
    rw [List.getD_eq_getElem _ _ (by simpa using h)]
    simp
  · next h =>
    rw [List.getD_eq_default]
    simpa using h

theorem write_slots_length (pairs : List (Nat × Int)) (res : List Int) :
    (write_slots pairs res).length = res.length := by
  induction pairs generalizing res with
  | nil => rfl
  | cons q t ih =>
    rw [show write_slots (q :: t) res = write_slots t (res.set q.1 q.2) from rfl, ih,
      List.length_set]

theorem write_slots_getElem?_not_mem (pairs : List (Nat × Int)) (res : List Int)
    (p : Nat) (h : ∀ q ∈ pairs, q.1 ≠ p) :
    (write_slots pairs res)[p]? = res[p]? := by
  induction pairs generalizing res with
  | nil => rfl
  | cons q t ih =>
    rw [show write_slots (q :: t) res = write_slots t (res.set q.1 q.2) from rfl]
    rw [ih _ (fun x hx => h x (List.mem_cons_of_mem _ hx))]
    exact List.getElem?_set_ne (h q (List.mem_cons_self _ _))

theorem write_slots_getElem?_mem (pairs : List (Nat × Int)) (res : List Int)
    (p : Nat) (v : Int) (hmem : (p, v) ∈ pairs)
    (hnd : (pairs.map Prod.fst).Nodup) (hlen : p < res.length) :
    (write_slots pairs res)[p]? = some v := by
  induction pairs generalizing res with
  | nil => cases hmem
  | cons q t ih =>
    rw [show write_slots (q :: t) res = write_slots t (res.set q.1 q.2) from rfl]
    rw [List.map_cons, List.nodup_cons] at hnd
    rcases List.mem_cons.mp hmem with heq | hmem2
    · have hq1 : q.1 = p := by rw [← heq]
      have hq2 : q.2 = v := by rw [← heq]
      have hnotin : ∀ x ∈ t, x.1 ≠ p := by
        intro x hx hc
        exact hnd.1 (hq1 ▸ hc ▸ List.mem_map_of_mem Prod.fst hx)
      rw [write_slots_getElem?_not_mem t _ p hnotin, hq1, hq2]
      exact List.getElem?_set_eq_of_lt v hlen
    · exact ih (res.set q.1 q.2) hmem2 hnd.2 (by rw [List.length_set]; exact hlen)

theorem all_isNone_replicate (n : Nat) :
    (List.replicate n (none : Option Rat)).all (fun o => o.isNone) = true := by
  rw [List.all_eq_true]
  intro x hx
  simp [List.eq_of_mem_replicate hx]

/-- C1: for every home-bus row b the resolver returns b for selector 1,
b plus the original-bus count for selector 2 and -1 for selector -1; any
selector outside -1, 1, 2 produces the invalid-selector error, never a
silently coerced value. -/
theorem pp_bus_resolver_spec (st : Backend) (b : Int) (s : Int)
    (hs : s ≠ 1 ∧ s ≠ 2 ∧ s ≠ -1) :
    pp_bus_from_grid2op_bus st 1 b = Except.ok b ∧
    pp_bus_from_grid2op_bus st 2 b = Except.ok (b + (st.nb_bus_before_orig : Int)) ∧
    pp_bus_from_grid2op_bus st (-1) b = Except.ok (-1) ∧
    pp_bus_from_grid2op_bus st s b = Except.error "grid2op bus must be -1, 1 or 2" := by
  obtain ⟨h1, h2, h3⟩ := hs
  refine ⟨?_, ?_, ?_, ?_⟩
  · simp [pp_bus_from_grid2op_bus]
  · simp [pp_bus_from_grid2op_bus]
  · simp [pp_bus_from_grid2op_bus]
  · simp [pp_bus_from_grid2op_bus, h1, h2, h3]

theorem pp_bus_resolver_spec_witness :
    (5 : Int) ≠ 1 ∧ (5 : Int) ≠ 2 ∧ (5 : Int) ≠ -1 ∧
    pp_bus_from_grid2op_bus stC6 1 3 = Except.ok 3 ∧
    pp_bus_from_grid2op_bus stC6 2 3 = Except.ok 5 ∧
    pp_bus_from_grid2op_bus stC6 5 3 = Except.error "grid2op bus must be -1, 1 or 2" := by
  have h := pp_bus_resolver_spec stC6 3 5 (by decide)
  exact ⟨by decide, by decide, by decide, h.1, by rw [h.2.1]; decide, h.2.2.2⟩

/-- C8: the bus table doubles at load time; each appended row keeps the
original row's electrical attributes, is out of service, and sits at the
original index shifted by the pre-duplication table length. -/
theorem load_grid_bus_duplication (bus : List BusRow) (i : Nat)
    (h : i < bus.length) :
    (load_grid_double_bus bus).length = 2 * bus.length ∧
    (load_grid_double_bus bus)[i]? = bus[i]? ∧
    (load_grid_double_bus bus)[i + bus.length]? =
      some { bus.getD i default with in_service := false } := by
  refine ⟨?_, ?_, ?_⟩
  · simp [load_grid_double_bus, add_topo_rows, two_mul]
  · exact List.getElem?_append_left h
  · rw [load_grid_double_bus, List.getElem?_append_right (by omega)]
    simp only [Nat.add_sub_cancel]
    rw [add_topo_rows, List.getElem?_map, List.getElem?_eq_getElem h,
      List.getD_eq_getElem _ _ h]
    rfl

theorem load_grid_bus_duplication_witness :
    (load_grid_double_bus busW8).length = 2 * busW8.length ∧
    (load_grid_double_bus busW8)[1]? = busW8[1]? ∧
    (load_grid_double_bus busW8)[1 + busW8.length]? =
      some { busW8.getD 1 default with in_service := false } :=
  load_grid_bus_duplication busW8 1 (by decide)

/-- C10: disconnecting (selector -1) and then reconnecting (selector 1) a
load or a generator restores the element's backend bus column to exactly its
load-time home bus and its in_service flag to true: the resolver always
reads the immutable init_bus tables, never the current (possibly -1) bus. -/
theorem disconnect_reconnect_restores_home_bus (st : Backend) :
    (∀ i t1 t2 st1 st2, i < st.load.length → 0 ≤ st.init_bus_load.getD i 0 →
      apply_load_bus st (-1) i t1 = Except.ok st1 →
      apply_load_bus st1 1 i t2 = Except.ok st2 →
      (st2.load.getD i default).bus = st.init_bus_load.getD i 0 ∧
      (st2.load.getD i default).in_service = true) ∧
    (∀ i t1 t2 st1 st2, i < st.gen.length → 0 ≤ st.init_bus_gen.getD i 0 →
      apply_gen_bus st (-1) i t1 = Except.ok st1 →
      apply_gen_bus st1 1 i t2 = Except.ok st2 →
      (st2.gen.getD i default).bus = st.init_bus_gen.getD i 0 ∧
      (st2.gen.getD i default).in_service = true) := by
  constructor
  · intro i t1 t2 st1 st2 hi h0 h1 h2
    have e1 : ({ st with load := (listModify st.load i
        (fun r => { r with in_service := false, bus := -1 })) } : Backend) = st1 :=
      Except.ok.inj h1
    subst e1
    have hres1 : ∀ (s : Backend) (b : Int), pp_bus_from_grid2op_bus s 1 b = Except.ok b := by
      intro s b
      simp [pp_bus_from_grid2op_bus]
    simp only [apply_load_bus, hres1, ge_iff_le, h0, if_true] at h2
    have e2 := Except.ok.inj h2
    subst e2
    constructor
    · rw [listModify_getD _ _ _ _ (by rw [listModify_length]; simpa using hi)]
    · rw [listModify_getD _ _ _ _ (by rw [listModify_length]; simpa using hi)]
  · intro i t1 t2 st1 st2 hi h0 h1 h2
    have e1 : ({ st with gen := (listModify st.gen i
        (fun r => { r with in_service := false, bus := -1 })) } : Backend) = st1 :=
      Except.ok.inj h1
    subst e1
    have hres1 : ∀ (s : Backend) (b : Int), pp_bus_from_grid2op_bus s 1 b = Except.ok b := by
      intro s b
      simp [pp_bus_from_grid2op_bus]
    simp only [apply_gen_bus, hres1, ge_iff_le, h0, if_true] at h2
    split at h2 <;>
    · have e2 := Except.ok.inj h2
      subst e2
      constructor
      · rw [listModify_getD _ _ _ _ (by rw [listModify_length]; simpa using hi)]
      · rw [listModify_getD _ _ _ _ (by rw [listModify_length]; simpa using hi)]

theorem disconnect_reconnect_restores_home_bus_witness :
    (stW10b.load.getD 0 default).bus = stW10.init_bus_load.getD 0 0 ∧
    (stW10b.load.getD 0 default).in_service = true :=
  (disconnect_reconnect_restores_home_bus stW10).1 0 0 0 stW10a stW10b
    (by decide) (by decide) (by decide) (by decide)

theorem apply_inj_load_p_cols (s : Backend) (vs : ValueStore) (j : Nat) :
    ((apply_inj_load_p s vs).load.getD j default).bus = (s.load.getD j default).bus ∧
    ((apply_inj_load_p s vs).load.getD j default).in_service =
      (s.load.getD j default).in_service := by
  have hl : (apply_inj_load_p s vs).load =
      (List.range s.load.length).map (fun i =>
        if vs.changed.getD i false then
          { s.load.getD i default with p_mw := vs.values.getD i 0 }
        else s.load.getD i default) := rfl
  rw [hl, getD_range_map]
  by_cases hj : j < s.load.length
  · simp only [hj, if_true]
    constructor <;> (split <;> rfl)
  · have hd : s.load.getD j default = default := List.getD_eq_default _ _ (by omega)
    rw [hd, if_neg hj]
    exact ⟨rfl, rfl⟩

theorem apply_inj_load_q_cols (s : Backend) (vs : ValueStore) (j : Nat) :
    ((apply_inj_load_q s vs).load.getD j default).bus = (s.load.getD j default).bus ∧
    ((apply_inj_load_q s vs).load.getD j default).in_service =
      (s.load.getD j default).in_service := by
  have hl : (apply_inj_load_q s vs).load =
      (List.range s.load.length).map (fun i =>
        if vs.changed.getD i false then
          { s.load.getD i default with q_mvar := vs.values.getD i 0 }
        else s.load.getD i default) := rfl
  rw [hl, getD_range_map]
  by_cases hj : j < s.load.length
  · simp only [hj, if_true]
    constructor <;> (split <;> rfl)
  · have hd : s.load.getD j default = default := List.getD_eq_default _ _ (by omega)
    rw [hd, if_neg hj]
    exact ⟨rfl, rfl⟩

theorem apply_inj_prod_p_cols (s : Backend) (vs : ValueStore) (j : Nat) :
    ((apply_inj_prod_p s vs).gen.getD j default).bus = (s.gen.getD j default).bus ∧
    ((apply_inj_prod_p s vs).gen.getD j default).in_service =
      (s.gen.getD j default).in_service := by
  have hl : (apply_inj_prod_p s vs).gen =
      (List.range s.gen.length).map (fun i =>
        if vs.changed.getD i false then
          { s.gen.getD i default with p_mw := vs.values.getD i 0 }
        else s.gen.getD i default) := rfl
  rw [hl, getD_range_map]
  by_cases hj : j < s.gen.length
  · simp only [hj, if_true]
    constructor <;> (split <;> rfl)
  · have hd : s.gen.getD j default = default := List.getD_eq_default _ _ (by omega)
    rw [hd, if_neg hj]
    exact ⟨rfl, rfl⟩

theorem apply_inj_prod_v_cols (s : Backend) (vs : ValueStore) (j : Nat) :
    ((apply_inj_prod_v s vs).gen.getD j default).bus = (s.gen.getD j default).bus ∧
    ((apply_inj_prod_v s vs).gen.getD j default).in_service =
      (s.gen.getD j default).in_service := by
  have hl : (apply_inj_prod_v s vs).gen =
      (List.range s.gen.length).map (fun i =>
        if vs.changed.getD i false then
          { s.gen.getD i default with vm_pu := vs.values.getD i 0 / s.prod_pu_to_kv.getD i 1 }
        else s.gen.getD i default) := rfl
  rw [hl, getD_range_map]
  by_cases hj : j < s.gen.length
  · simp only [hj, if_true]
    constructor <;> (split <;> rfl)
  · have hd : s.gen.getD j default = default := List.getD_eq_default _ _ (by omega)
    rw [hd, if_neg hj]
    exact ⟨rfl, rfl⟩

theorem apply_slack_v_proj (x : Backend) (v : ValueStore) :
    (apply_slack_v x v).load = x.load ∧ (apply_slack_v x v).gen = x.gen ∧
    (apply_slack_v x v).line = x.line ∧ (apply_slack_v x v).trafo = x.trafo := by
  unfold apply_slack_v
  cases x.id_bus_added with
  | none => exact ⟨rfl, rfl, rfl, rfl⟩
  | some idb =>
    dsimp only
    split <;> exact ⟨rfl, rfl, rfl, rfl⟩

theorem type_to_bus_set_valid_not_error (s : Backend) (k : BusSetKind) (sel : Int)
    (i t : Nat) (e : String × Backend) (hsel : sel = 1 ∨ sel = 2 ∨ sel = -1)
    (htb : type_to_bus_set s k sel i t = Except.error e) : False := by
  have hres1 : ∀ (x : Backend) (b : Int),
      pp_bus_from_grid2op_bus x 1 b = Except.ok b := by
    intro x b
    simp [pp_bus_from_grid2op_bus]
  have hres2 : ∀ (x : Backend) (b : Int),
      pp_bus_from_grid2op_bus x 2 b = Except.ok (b + (x.nb_bus_before_orig : Int)) := by
    intro x b
    simp [pp_bus_from_grid2op_bus]
  have hres3 : ∀ (x : Backend) (b : Int),
      pp_bus_from_grid2op_bus x (-1) b = Except.ok (-1) := by
    intro x b
    simp [pp_bus_from_grid2op_bus]
  rcases hsel with h | h | h <;> subst h <;> cases k <;>
    simp only [type_to_bus_set, apply_load_bus, apply_gen_bus, apply_lor_bus,
      apply_trafo_hv, apply_lex_bus, apply_trafo_lv, hres1, hres2, hres3] at htb <;>
    (repeat' split at htb) <;> exact Except.noConfusion htb

theorem apply_topo_changes_valid_ok (s : Backend) (pre : List (Nat × Int))
    (hpre : ∀ q ∈ pre, q.2 = 1 ∨ q.2 = 2 ∨ q.2 = -1) :
    ∃ s1, apply_topo_changes s pre = Except.ok s1 := by
  induction pre generalizing s with
  | nil => exact ⟨s, rfl⟩
  | cons q t ih =>
    obtain ⟨qa, qb⟩ := q
    cases hstep : type_to_bus_set s
        (s.big_topo_to_backend.getD qa (0, 0, BusSetKind.load)).2.2 qb
        (s.big_topo_to_backend.getD qa (0, 0, BusSetKind.load)).1
        (s.big_topo_to_backend.getD qa (0, 0, BusSetKind.load)).2.1 with
    | error e =>
      exact (type_to_bus_set_valid_not_error _ _ _ _ _ _
        (hpre (qa, qb) (List.mem_cons_self _ _)) hstep).elim
    | ok s1 =>
      obtain ⟨s2, hs2⟩ := ih s1 (fun x hx => hpre x (List.mem_cons_of_mem _ hx))
      refine ⟨s2, ?_⟩
      simp only [apply_topo_changes]
      rw [hstep]
      exact hs2

theorem apply_topo_changes_append (s : Backend) (l1 l2 : List (Nat × Int)) :
    apply_topo_changes s (l1 ++ l2) =
      match apply_topo_changes s l1 with
      | Except.error e => Except.error e
      | Except.ok s1 => apply_topo_changes s1 l2 := by
  induction l1 generalizing s with
  | nil => rfl
  | cons q t ih =>
    obtain ⟨qa, qb⟩ := q
    simp only [List.cons_append, apply_topo_changes]
    cases type_to_bus_set s
        (s.big_topo_to_backend.getD qa (0, 0, BusSetKind.load)).2.2 qb
        (s.big_topo_to_backend.getD qa (0, 0, BusSetKind.load)).1
        (s.big_topo_to_backend.getD qa (0, 0, BusSetKind.load)).2.1 with
    | error e => rfl
    | ok s1 => exact ih s1

/-- C9: when apply_action's (slot, selector) list contains a pair whose
selector lies outside -1, 1, 2 — at any position, after any number of valid
pairs — the topology loop processes the valid prefix, the offending pair
raises the fatal invalid-selector error with the target bus resolved before
any mutation (the error carries exactly the state reached before that pair),
and apply_action propagates the error unchanged; moreover the injection and
shunt steps that run before the loop never touch a bus or in_service column
of any load, generator, line or trafo row. -/
theorem apply_action_invalid_selector_aborts (st : Backend) (a : BackendAction)
    (pre : List (Nat × Int)) (id_el : Nat) (sel : Int) (rest : List (Nat × Int))
    (htopo : a.topo = pre ++ (id_el, sel) :: rest)
    (hpre : ∀ q ∈ pre, q.2 = 1 ∨ q.2 = 2 ∨ q.2 = -1)
    (hs : sel ≠ 1 ∧ sel ≠ 2 ∧ sel ≠ -1) :
    ∃ st1 : Backend,
      apply_topo_changes (apply_injections_shunts st a) pre = Except.ok st1 ∧
      apply_topo_changes st1 ((id_el, sel) :: rest) =
        Except.error ("grid2op bus must be -1, 1 or 2", st1) ∧
      apply_action st (some a) =
        Except.error ("grid2op bus must be -1, 1 or 2", st1) ∧
      (∀ j, ((apply_injections_shunts st a).load.getD j default).bus =
          (st.load.getD j default).bus ∧
        ((apply_injections_shunts st a).load.getD j default).in_service =
          (st.load.getD j default).in_service) ∧
      (∀ j, ((apply_injections_shunts st a).gen.getD j default).bus =
          (st.gen.getD j default).bus ∧
        ((apply_injections_shunts st a).gen.getD j default).in_service =
          (st.gen.getD j default).in_service) ∧
      (apply_injections_shunts st a).line = st.line ∧
      (apply_injections_shunts st a).trafo = st.trafo := by
  obtain ⟨h1, h2, h3⟩ := hs
  have hres : ∀ (s : Backend) (b : Int),
      pp_bus_from_grid2op_bus s sel b = Except.error "grid2op bus must be -1, 1 or 2" := by
    intro s b
    simp [pp_bus_from_grid2op_bus, h1, h2, h3]
  have hloop : ∀ s : Backend,
      apply_topo_changes s ((id_el, sel) :: rest) =
        Except.error ("grid2op bus must be -1, 1 or 2", s) := by
    intro s
    simp only [apply_topo_changes]
    cases hk : (s.big_topo_to_backend.getD id_el (0, 0, BusSetKind.load)).2.2 <;>
      simp [type_to_bus_set, hk, apply_load_bus, apply_gen_bus, apply_lor_bus,
        apply_trafo_hv, apply_lex_bus, apply_trafo_lv, hres]
  obtain ⟨st1, hok⟩ := apply_topo_changes_valid_ok (apply_injections_shunts st a) pre hpre
  refine ⟨st1, hok, hloop st1, ?_, ?_, ?_, ?_, ?_⟩
  · simp only [apply_action, htopo]
    rw [apply_topo_changes_append, hok]
    show (match apply_topo_changes st1 ((id_el, sel) :: rest) with
          | Except.error e => Except.error e
          | Except.ok s1 => Except.ok (apply_active_bus s1 a.active_bus)) =
      Except.error ("grid2op bus must be -1, 1 or 2", st1)
    rw [hloop st1]
  · intro j
    have hq := apply_inj_load_q_cols (apply_inj_load_p (apply_slack_v
        (apply_inj_prod_v (apply_inj_prod_p st a.prod_p) a.prod_v) a.prod_v) a.load_p)
        a.load_q j
    have hp := apply_inj_load_p_cols (apply_slack_v
        (apply_inj_prod_v (apply_inj_prod_p st a.prod_p) a.prod_v) a.prod_v) a.load_p j
    have hS := (apply_slack_v_proj (apply_inj_prod_v (apply_inj_prod_p st a.prod_p)
        a.prod_v) a.prod_v).1
    exact ⟨hq.1.trans (hp.1.trans (congrArg (fun l => (l.getD j default).bus) hS)),
      hq.2.trans (hp.2.trans (congrArg (fun l => (l.getD j default).in_service) hS))⟩
  · intro j
    have hv := apply_inj_prod_v_cols (apply_inj_prod_p st a.prod_p) a.prod_v j
    have hp := apply_inj_prod_p_cols st a.prod_p j
    have hS := (apply_slack_v_proj (apply_inj_prod_v (apply_inj_prod_p st a.prod_p)
        a.prod_v) a.prod_v).2.1
    exact ⟨(congrArg (fun l => (l.getD j default).bus) hS).trans (hv.1.trans hp.1),
      (congrArg (fun l => (l.getD j default).in_service) hS).trans (hv.2.trans hp.2)⟩
  · exact (apply_slack_v_proj (apply_inj_prod_v (apply_inj_prod_p st a.prod_p)
      a.prod_v) a.prod_v).2.2.1
  · exact (apply_slack_v_proj (apply_inj_prod_v (apply_inj_prod_p st a.prod_p)
      a.prod_v) a.prod_v).2.2.2

theorem apply_action_invalid_selector_aborts_witness :
    apply_action stW10 (some aW9) =
      Except.error ("grid2op bus must be -1, 1 or 2", stW9e) := by
  obtain ⟨st1, hok, hbad, hact, hrest⟩ :=
    apply_action_invalid_selector_aborts stW10 aW9 [(0, -1)] 0 5 [] rfl
      (by decide) (by decide)
  have he : apply_topo_changes (apply_injections_shunts stW10 aW9) [(0, -1)] =
      Except.ok stW9e := by decide
  have h2 := he.symm.trans hok
  injection h2 with h3
  subst h3
  exact hact

/-- Counterexample to C2 as stated: in stC2 the only load is marked out of
service (its bus column holds -1), yet the decoded topology vector carries
selector 2 at the load's slot, not -1: _get_topo_vect never inspects the
load (or generator) in_service column. -/
theorem get_topo_vect_ignores_out_of_service_load :
    (stC2.load.getD 0 default).in_service = false ∧
    get_topo_vect stC2 = [2] ∧
    (get_topo_vect stC2).getD (stC2.load_pos_topo_vect.getD 0 0) 0 ≠ -1 := by decide

/-- C2 amended: after a solve, line and transformer ends decode to -1 when
the recorded branch status is false and otherwise to 1 when the end's bus
equals the substation's original bus and 2 otherwise; loads and generators
are decoded without any in-service inspection, to 1 when the current bus
equals the original bus and 2 in every other case (including a disconnected
element whose bus column holds -1). -/
theorem get_topo_vect_decode_spec (st : Backend)
    (hnd : ((topo_pairs st).map Prod.fst).Nodup)
    (hdim : ∀ q ∈ topo_pairs st, q.1 < st.dim_topo) :
    (∀ i, i < st.load.length →
      (get_topo_vect st)[st.load_pos_topo_vect.getD i 0]? =
        some (if (st.load.getD i default).bus = st.load_to_subid.getD i 0 then 1 else 2)) ∧
    (∀ i, i < st.gen.length →
      (get_topo_vect st)[st.gen_pos_topo_vect.getD i 0]? =
        some (if (st.gen.getD i default).bus = st.gen_to_subid.getD i 0 then 1 else 2)) ∧
    (∀ i, i < st.line.length →
      (get_topo_vect st)[st.line_or_pos_topo_vect.getD i 0]? =
        some (if st.line_status.getD i false then
          (if (st.line.getD i default).from_bus = st.line_or_to_subid.getD i 0 then 1 else 2)
          else -1) ∧
      (get_topo_vect st)[st.line_ex_pos_topo_vect.getD i 0]? =
        some (if st.line_status.getD i false then
          (if (st.line.getD i default).to_bus = st.line_ex_to_subid.getD i 0 then 1 else 2)
          else -1)) ∧
    (∀ i, i < st.trafo.length →
      (get_topo_vect st)[st.line_or_pos_topo_vect.getD (i + st.number_true_line) 0]? =
        some (if st.line_status.getD (i + st.number_true_line) false then
          (if (st.trafo.getD i default).hv_bus =
              st.line_or_to_subid.getD (i + st.number_true_line) 0 then 1 else 2)
          else -1) ∧
      (get_topo_vect st)[st.line_ex_pos_topo_vect.getD (i + st.number_true_line) 0]? =
        some (if st.line_status.getD (i + st.number_true_line) false then
          (if (st.trafo.getD i default).lv_bus =
              st.line_ex_to_subid.getD (i + st.number_true_line) 0 then 1 else 2)
          else -1)) := by
  have master : ∀ p v, (p, v) ∈ topo_pairs st → (get_topo_vect st)[p]? = some v := by
    intro p v hm
    exact write_slots_getElem?_mem (topo_pairs st) (List.replicate st.dim_topo 0) p v hm
      hnd (by simpa using hdim _ hm)
  refine ⟨?_, ?_, ?_, ?_⟩
  · intro i hi
    apply master
    refine List.mem_append_right _ ?_
    exact List.mem_map_of_mem _ (List.mem_range.mpr hi)
  · intro i hi
    apply master
    refine List.mem_append_left _ (List.mem_append_right _ ?_)
    exact List.mem_map_of_mem _ (List.mem_range.mpr hi)
  · intro i hi
    constructor
    · apply master
      refine List.mem_append_left _ (List.mem_append_left _ (List.mem_append_left _ ?_))
      apply List.mem_bind.mpr
      refine ⟨i, List.mem_range.mpr hi, ?_⟩
      show _ ∈ (if st.line_status.getD i false then _ else _)
      by_cases h : st.line_status.getD i false = true
      · simp only [if_pos h]
        exact List.mem_cons_self _ _
      · simp only [if_neg h]
        exact List.mem_cons_self _ _
    · apply master
      refine List.mem_append_left _ (List.mem_append_left _ (List.mem_append_left _ ?_))
      apply List.mem_bind.mpr
      refine ⟨i, List.mem_range.mpr hi, ?_⟩
      show _ ∈ (if st.line_status.getD i false then _ else _)
      by_cases h : st.line_status.getD i false = true
      · simp only [if_pos h]
        exact List.mem_cons_of_mem _ (List.mem_cons_self _ _)
      · simp only [if_neg h]
        exact List.mem_cons_of_mem _ (List.mem_cons_self _ _)
  · intro i hi
    constructor
    · apply master
      refine List.mem_append_left _ (List.mem_append_left _ (List.mem_append_right _ ?_))
      apply List.mem_bind.mpr
      refine ⟨i, List.mem_range.mpr hi, ?_⟩
      show _ ∈ (if st.line_status.getD (i + st.number_true_line) false then _ else _)
      by_cases h : st.line_status.getD (i + st.number_true_line) false = true
      · simp only [if_pos h]
        exact List.mem_cons_self _ _
      · simp only [if_neg h]
        exact List.mem_cons_self _ _
    · apply master
      refine List.mem_append_left _ (List.mem_append_left _ (List.mem_append_right _ ?_))
      apply List.mem_bind.mpr
      refine ⟨i, List.mem_range.mpr hi, ?_⟩
      show _ ∈ (if st.line_status.getD (i + st.number_true_line) false then _ else _)
      by_cases h : st.line_status.getD (i + st.number_true_line) false = true
      · simp only [if_pos h]
        exact List.mem_cons_of_mem _ (List.mem_cons_self _ _)
      · simp only [if_neg h]
        exact List.mem_cons_of_mem _ (List.mem_cons_self _ _)

theorem get_topo_vect_decode_spec_witness :
    ((topo_pairs stW2).map Prod.fst).Nodup ∧
    (get_topo_vect stW2)[stW2.load_pos_topo_vect.getD 0 0]? =
      some (if (stW2.load.getD 0 default).bus = stW2.load_to_subid.getD 0 0 then 1 else 2) ∧
    (get_topo_vect stW2)[stW2.line_or_pos_topo_vect.getD (0 + stW2.number_true_line) 0]? =
      some (if stW2.line_status.getD (0 + stW2.number_true_line) false then
        (if (stW2.trafo.getD 0 default).hv_bus =
            stW2.line_or_to_subid.getD (0 + stW2.number_true_line) 0 then 1 else 2)
        else -1) :=
  ⟨by decide,
   (get_topo_vect_decode_spec stW2 (by decide) (by decide)).1 0 (by decide),
   ((get_topo_vect_decode_spec stW2 (by decide) (by decide)).2.2.2 0 (by decide)).1⟩

theorem outputs_all_unknown_reset (s : Backend) :
    outputs_all_unknown (reset_all_nan s) = true := by
  simp [outputs_all_unknown, reset_all_nan, List.all_append, all_isNone_replicate]

/-- C3: whenever the try block of runpf raises a convergence failure (the
isolated-element prechecks, a solver failure, a missing generator result or
a non-finite load voltage), runpf returns normally with the boolean status
False, every published electrical output vector reset to the unknown
sentinel and the warm-start memory cleared; the exception never escapes
(runpf is a total function into Backend x Bool). -/
theorem runpf_failure_resets_outputs (solver : SolverCall) (st : Backend)
    (is_dc : Bool) (e : String × Backend)
    (h : runpf_try solver st is_dc = Except.error e) :
    runpf solver st is_dc = (reset_all_nan e.2, false) ∧
    (runpf solver st is_dc).2 = false ∧
    outputs_all_unknown (runpf solver st is_dc).1 = true ∧
    (runpf solver st is_dc).1.nb_bus_before = none := by
  have hr : runpf solver st is_dc = (reset_all_nan e.2, false) := by
    unfold runpf
    rw [h]
  refine ⟨hr, by rw [hr], ?_, by rw [hr]; rfl⟩
  rw [hr]
  exact outputs_all_unknown_reset e.2

theorem runpf_failure_resets_outputs_witness :
    runpf solver0 stW3 false = (reset_all_nan stW3e, false) ∧
    outputs_all_unknown (runpf solver0 stW3 false).1 = true :=
  ⟨(runpf_failure_resets_outputs solver0 stW3 false ("Isolated load", stW3e) (by decide)).1,
   (runpf_failure_resets_outputs solver0 stW3 false ("Isolated load", stW3e) (by decide)).2.2.1⟩

theorem runpf_try_pf_init_ok (solver : SolverCall) (st : Backend) (is_dc : Bool)
    (r : Backend × Bool) (h : runpf_try solver st is_dc = Except.ok r) :
    r.1.pf_init = pf_init_choice st.nb_bus_before (get_nb_active_bus st) := by
  unfold runpf_try at h
  dsimp only at h
  repeat' split at h
  all_goals first
    | (injection h with h2; subst h2; rfl)
    | (simp at h; done)
    | (rename_i s1 heq
       have hst1 : s1.pf_init = pf_init_choice st.nb_bus_before (get_nb_active_bus st) := by
         repeat' split at heq
         all_goals first
           | (injection heq with h3; subst h3; rfl)
           | simp at heq
       injection h with h2
       subst h2
       exact hst1)

theorem runpf_try_pf_init_error (solver : SolverCall) (st : Backend) (is_dc : Bool)
    (e : String × Backend) (h : runpf_try solver st is_dc = Except.error e) :
    e.2.pf_init = pf_init_choice st.nb_bus_before (get_nb_active_bus st) := by
  unfold runpf_try at h
  dsimp only at h
  repeat' split at h
  all_goals first
    | (injection h with h2; subst h2; rfl)
    | (simp at h; done)
    | (rename_i s1 heq
       have hst1 : s1.2.pf_init = pf_init_choice st.nb_bus_before (get_nb_active_bus st) := by
         repeat' split at heq
         all_goals first
           | (injection heq with h3; subst h3; rfl)
           | simp at heq
       injection h with h2
       subst h2
       exact hst1)

/-- C4: when the recorded active-bus count of the previous call equals the
active bus count at the start of the solve, the orchestrator selects the
warm-start initialization mode "results" (reuse of the previous results)
rather than the cold "dc" or the generic "auto" mode; the mode is stored in
the state's pf_init field, which the rest of runpf never changes. -/
theorem runpf_warm_start_uses_results (solver : SolverCall) (st : Backend)
    (is_dc : Bool) (h : st.nb_bus_before = some (get_nb_active_bus st)) :
    (runpf solver st is_dc).1.pf_init = "results" := by
  have hp : pf_init_choice st.nb_bus_before (get_nb_active_bus st) = "results" := by
    rw [pf_init_choice, h]
    simp
  unfold runpf
  cases hr : runpf_try solver st is_dc with
  | ok r =>
    exact (runpf_try_pf_init_ok solver st is_dc r hr).trans hp
  | error e =>
    show (reset_all_nan e.2).pf_init = _
    exact (runpf_try_pf_init_error solver st is_dc e hr).trans hp

theorem runpf_warm_start_uses_results_witness :
    stW4.nb_bus_before = some (get_nb_active_bus stW4) ∧
    (runpf solver0 stW4 false).1.pf_init = "results" :=
  ⟨by decide, runpf_warm_start_uses_results solver0 stW4 false (by decide)⟩

/-- C5: with any load or generator row out of service, an alternating-current
runpf reports failure immediately: the result does not depend on the solver
(the solver is never consulted), the status is False, no exception escapes,
and every published electrical output vector holds the unknown sentinel. -/
theorem runpf_isolated_element_precheck (solver : SolverCall) (st : Backend)
    (h : st.load.any (fun r => !r.in_service) = true ∨
         st.gen.any (fun r => !r.in_service) = true) :
    runpf solver st false =
      (reset_all_nan { st with pf_init := pf_init_choice st.nb_bus_before (get_nb_active_bus st) }, false) ∧
    (∀ solver2 : SolverCall, runpf solver2 st false = runpf solver st false) ∧
    outputs_all_unknown (runpf solver st false).1 = true ∧
    (runpf solver st false).2 = false := by
  have key : ∀ s : SolverCall, runpf s st false =
      (reset_all_nan { st with pf_init := pf_init_choice st.nb_bus_before (get_nb_active_bus st) }, false) := by
    intro s
    unfold runpf runpf_try
    dsimp only
    rcases h with hl | hg
    · rw [if_pos hl]
    · by_cases hl : st.load.any (fun r => !r.in_service) = true
      · rw [if_pos hl]
      · rw [if_neg hl, if_pos hg]
  refine ⟨key solver, fun s2 => (key s2).trans (key solver).symm, ?_, ?_⟩
  · rw [key solver]
    exact outputs_all_unknown_reset _
  · rw [key solver]

theorem runpf_isolated_element_precheck_witness :
    runpf solver0 stW5 false =
      (reset_all_nan { stW5 with pf_init := pf_init_choice stW5.nb_bus_before (get_nb_active_bus stW5) }, false) ∧
    (runpf solver0 stW5 false).2 = false :=
  ⟨(runpf_isolated_element_precheck solver0 stW5 (Or.inr (by decide))).1,
   (runpf_isolated_element_precheck solver0 stW5 (Or.inr (by decide))).2.2.2⟩

/-- C6 (code bug): in stC6 the only shunt is in service and sits on its
split bus (row 2 = substation 0 + original-bus-count 2), yet shunt_info
publishes bus indicator 0 — the source computes 1 * (bus < original count),
so a split-bus shunt yields 0 instead of selector 2, and the in_service
column is never consulted (a disconnected shunt would yield 1 or 0, never
-1), contradicting the selector convention used everywhere else. -/
theorem shunt_info_selector_at_failing_input :
    (stC6.shunt.getD 0 default).in_service = true ∧
    (stC6.shunt.getD 0 default).bus =
      stC6.shunt_to_subid.getD 0 0 + (stC6.nb_bus_before_orig : Int) ∧
    (shunt_info stC6 outC6).2.2.2 = [0] := by decide

/-- Counterexample to C7 as stated: in stC7 the synthesized slack generator
(row 1, bus 3) shares its bus with no other generator (the only other
generator sits on bus 0), yet _gens_info still adds the internal
reference-row power 5 onto its published active power (2 becomes 7): the
bus-sharing guard is commented out in the source (line 882). -/
theorem gens_info_correction_without_shared_bus :
    (stC7.gen.getD 0 default).bus ≠ (stC7.gen.getD 1 default).bus ∧
    stC7.iref_slack = some 0 ∧
    stC7.id_bus_added = some 1 ∧
    outC7.res_gen_p.getD 1 none = some 2 ∧
    (gens_info stC7 outC7).1.getD 1 none = some (2 + 5) ∧
    some ((2 : Rat) + 5) ≠ some 2 := by
  refine ⟨by decide, rfl, rfl, rfl, rfl, by norm_num⟩

/-- C7 amended: _gens_info adds the solver's internal reference-row active
and reactive power onto the synthesized slack generator's row whenever a
slack generator was synthesized at load time and the solver exposes its
internal generator table — unconditionally, regardless of any bus sharing:
the result does not depend on the generator table's bus columns at all. -/
theorem gens_info_slack_correction (st : Backend) (out : SolverOutput)
    (iref : Nat) (igen : List (Rat × Rat)) (idb : Nat)
    (h1 : st.iref_slack = some iref) (h2 : out.internal_gen = some igen)
    (h3 : st.id_bus_added = some idb) (h4 : idb < out.res_gen_p.length)
    (h5 : idb < out.res_gen_q.length) :
    (gens_info st out).1.getD idb none =
      (out.res_gen_p.getD idb none).map (· + (igen.getD iref (0, 0)).1) ∧
    (gens_info st out).2.1.getD idb none =
      (out.res_gen_q.getD idb none).map (· + (igen.getD iref (0, 0)).2) ∧
    (∀ j, j ≠ idb → (gens_info st out).1.getD j none = out.res_gen_p.getD j none) ∧
    (∀ g2 : List GenRow, gens_info { st with gen := g2 } out = gens_info st out) := by
  refine ⟨?_, ?_, ?_, fun g2 => rfl⟩
  · unfold gens_info
    rw [h1, h2, h3]
    exact listModify_getD _ _ _ _ h4
  · unfold gens_info
    rw [h1, h2, h3]
    exact listModify_getD _ _ _ _ h5
  · intro j hj
    unfold gens_info
    rw [h1, h2, h3]
    exact listModify_getD_ne _ _ _ _ _ hj

theorem gens_info_slack_correction_witness :
    (gens_info stC7 outC7).1.getD 1 none = some (2 + 5) :=
  ((gens_info_slack_correction stC7 outC7 0 [(5, 4)] 1 rfl rfl rfl
    (by decide) (by decide)).1).trans rfl
